import Mathlib

/-!
Verification development for the OpenBusinessRepository data-processing module
(`tools/obr.py`).  The Python source is shallowly embedded below: JSON metadata
documents become a `JValue` tree, Python exceptions become explicit error
values, file-system effects of the parsing passes become explicit state
(`PipeFS`), and each Python function of interest is translated into a Lean
function of the same name wherever Lean's lexer allows it.
-/

namespace OBR

deriving instance DecidableEq for Except

/-- Python exception classes that the embedded code can raise.
`attributeError` models `AttributeError` (attribute access on an object that
lacks it), `nameError` models `NameError` (reference to an undefined global),
`keyError` models `KeyError` (dict subscript miss), `indexError` models
`IndexError`, `typeError` models `TypeError`, `valueError` models
`ValueError`, `runtimeError` models `RuntimeError`. -/
inductive PyErr where
  | attributeError
  | nameError
  | keyError
  | indexError
  | typeError
  | valueError
  | runtimeError
deriving DecidableEq, Repr

/-- A JSON value as produced by Python's `json.load`: objects are modelled as
association lists (Python dicts preserve insertion order; JSON objects from
`json.load` have unique keys). -/
inductive JValue where
  | str (s : String)
  | num (n : Int)
  | bool (b : Bool)
  | null
  | arr (elems : List JValue)
  | obj (fields : List (String × JValue))
deriving Repr

/-- Python `'k' in d` / `d['k']` on a dict, as association-list lookup. -/
def jLookup (fields : List (String × JValue)) (k : String) : Option JValue :=
  List.lookup k fields

/-- `isinstance(v, str)`. -/
def JValue.isStr : JValue → Bool
  | .str _ => true
  | _ => false

/-- `isinstance(v, dict)`. -/
def JValue.isObj : JValue → Bool
  | .obj _ => true
  | _ => false

/-- The fields of a JSON object (meaningful only after an `isObj` check,
mirroring how the Python code subscripts a value only after `isinstance`). -/
def JValue.objFields : JValue → List (String × JValue)
  | .obj f => f
  | _ => []

/-- The string payload (meaningful only after an `isStr` check). -/
def JValue.strVal : JValue → String
  | .str s => s
  | _ => ""

/-- `Algorithm.ADDR_FIELD_LABEL` (src line 211): supported address field
labels, in Canada Post mailing order. -/
def ADDR_FIELD_LABEL : List String :=
  ["unit", "house_number", "road", "city", "prov", "country", "postcode"]

/-- `Algorithm.FORCE_LABEL` (src line 214): field names acceptable in the
`force` tag. -/
def FORCE_LABEL : List String := ["city", "prov", "country"]

/-- `Algorithm.ENCODING_LIST` (src line 217): supported encodings, in the
order the heuristic tries them. -/
def ENCODING_LIST : List String := ["utf-8", "cp1252", "cp437"]

/-- `Algorithm.FIELD_LABEL` (src lines 193-207): the standard field
vocabulary, in declaration order. -/
def FIELD_LABEL : List String :=
  ["bus_name", "trade_name", "bus_type", "bus_no", "bus_desc",
   "lic_type", "lic_no", "bus_start_date", "bus_cease_date", "active",
   "full_addr",
   "house_number", "road", "postcode", "unit", "city", "prov", "country",
   "phone", "fax", "email", "website", "tollfree",
   "comdist", "region",
   "longitude",
   "latitude",
   "no_employed", "no_seasonal_emp", "no_full_emp", "no_part_emp", "emp_range",
   "home_bus", "munic_bus", "nonres_bus",
   "exports", "exp_cn_1", "exp_cn_2", "exp_cn_3",
   "naics_2", "naics_3", "naics_4", "naics_5", "naics_6",
   "naics_desc",
   "qc_cae_1", "qc_cae_desc_1", "qc_cae_2", "qc_cae_desc_2",
   "facebook", "twitter", "linkedin", "youtube", "instagram"]

/-- The Python error taxonomy used by `Source.parse`:
`LookupError` for a missing tag, `TypeError` for a wrong JSON type,
`ValueError` for an invalid value or combination of entries. -/
inductive SchemaError where
  | lookupError (msg : String)
  | typeError (msg : String)
  | valueError (msg : String)
deriving DecidableEq, Repr

/-- The three derived path roles set at the end of `Source.parse`
(src lines 816-827). -/
structure Paths where
  rawpath : String
  dirtypath : String
  cleanpath : String
deriving DecidableEq, Repr

/-- Python `filename.split('.')`: split on every dot; the result always has
at least one part, and has exactly one part when the name has no dot. -/
def splitOnDot : List Char → List (List Char)
  | [] => [[]]
  | c :: cs =>
    match splitOnDot cs with
    | [] => [[c]]
    | p :: ps => if c = '.' then [] :: p :: ps else (c :: p) :: ps

/-- Python `'.'.join(parts)`. -/
def joinDot : List (List Char) → List Char
  | [] => []
  | [p] => p
  | p :: ps => p ++ '.' :: joinDot ps

/-- Path derivation from the declared file name (src lines 817-827):
`rawpath` keeps the full name; the dirty/clean names strip the last
dot-extension (when the name contains a dot at all) and append a suffix. -/
def mkPaths (filename : String) : Paths :=
  let parts := splitOnDot filename.data
  let base : String :=
    if parts.length == 1 then filename else ⟨joinDot parts.dropLast⟩
  { rawpath := "./pddir/raw/" ++ filename
    dirtypath := "./pddir/dirty/" ++ base ++ "-dirty.csv"
    cleanpath := "./pddir/clean/" ++ base ++ "-clean.csv" }

/-- Path assignment at the end of `Source.parse` (src lines 816-827); reached
only after every check has passed (so `file` is present and a string). -/
def sourceParsePaths (md : List (String × JValue)) : Except SchemaError Paths :=
  .ok (mkPaths (((jLookup md "file").getD .null).strVal))

/-- The `force` checks and path assignment at the tail of `Source.parse`
(src lines 805-827).  Split out only because two Lean match arms continue
here; in the source it is a straight continuation of the same function. -/
def sourceParseForce (md : List (String × JValue))
    (info : List (String × JValue)) : Except SchemaError Paths :=
  match jLookup md "force" with
  | some fv =>
    if !fv.isObj then .error (.typeError "force tag must be an object.")
    else if !(fv.objFields.all (fun kv => decide (kv.1 ∈ FORCE_LABEL))) then
      .error (.valueError "force tag contains an invalid key.")
    else if fv.objFields.any
        (fun kv => ((jLookup info "address").getD .null).objFields.any
          (fun akv => akv.1 == kv.1)) then
      .error (.valueError "Key appears in force and address.")
    else sourceParsePaths md
  | none => sourceParsePaths md

/-- `Source.parse` (src lines 746-827): validates the metadata document and,
only when every check passes, derives the raw/dirty/clean paths.  The checks
are embedded in source order; raising is modelled as `Except.error`.
Note the per-key loops over `address` and `force` raise `ValueError` at the
first offending key; since all offending keys raise the same error kind, they
are embedded as `all`/`any` tests.  In the `force` loop the source guards the
address-membership test with `'address' in self.metadata['info']`; when
`address` is absent `objFields` of the `.null` default is `[]`, making the
`any` test false, which matches that guard. -/
def sourceParse (md : List (String × JValue)) : Except SchemaError Paths :=
  match jLookup md "format" with
  | none => .error (.lookupError "format tag is missing.")
  | some fmtv =>
  match jLookup md "file" with
  | none => .error (.lookupError "file tag is missing.")
  | some filev =>
  match jLookup md "info" with
  | none => .error (.lookupError "info tag is missing.")
  | some infov =>
  if !fmtv.isStr then .error (.typeError "format must be a string.")
  else if !filev.isStr then .error (.typeError "file must be a string.")
  else if !infov.isObj then .error (.typeError "info must be an object.")
  else
  if fmtv.strVal ≠ "xml" ∧ fmtv.strVal ≠ "csv" then
    .error (.valueError "Unsupported data format.")
  else if fmtv.strVal ≠ "csv" ∧ (jLookup md "header").isNone then
    .error (.lookupError "header tag missing.")
  else if fmtv.strVal ≠ "csv" ∧ !(((jLookup md "header").getD .null).isStr) then
    .error (.typeError "header must be a string.")
  else if (match jLookup md "url" with
           | some u => !u.isStr
           | none => false) then
    .error (.typeError "url must be a string.")
  else
  if (jLookup infov.objFields "address").isSome ∧
      (jLookup infov.objFields "full_addr").isSome then
    .error (.valueError "Cannot have both full_addr and address tags.")
  else
  match jLookup infov.objFields "address" with
  | some av =>
    if !av.isObj then .error (.typeError "address tag must be an object.")
    else if !(av.objFields.all (fun kv => decide (kv.1 ∈ ADDR_FIELD_LABEL))) then
      .error (.valueError "address tag contains an invalid key.")
    else sourceParseForce md infov.objFields
  | none => sourceParseForce md infov.objFields

/-- Spec §4.1: "a string `header` tag present" (used when format is xml). -/
def specHeaderIsString (md : List (String × JValue)) : Bool :=
  match jLookup md "header" with
  | some h => h.isStr
  | none => false

/-- Spec §4.1: "`url`, if present, a string". -/
def specUrlOk (md : List (String × JValue)) : Bool :=
  match jLookup md "url" with
  | some u => u.isStr
  | none => true

/-- Spec §4.1: "`info.address`, if present, an object whose keys are a
subset of the 7 structured-address field names". -/
def specAddressOk (info : List (String × JValue)) : Bool :=
  match jLookup info "address" with
  | some av =>
      av.isObj && av.objFields.all (fun kv => decide (kv.1 ∈ ADDR_FIELD_LABEL))
  | none => true

/-- Spec §4.1: "`force`, if present, an object whose keys are a subset of
\x7bcity, prov, country\x7d with no key also in `info.address`". -/
def specForceOk (md info : List (String × JValue)) : Bool :=
  match jLookup md "force" with
  | some fv =>
      fv.isObj && fv.objFields.all (fun kv => decide (kv.1 ∈ FORCE_LABEL)) &&
      !(fv.objFields.any (fun kv =>
          ((jLookup info "address").getD .null).objFields.any
            (fun akv => akv.1 == kv.1)))
  | none => true

/-- The structural rules of spec §4.1, written from the claim's words (to be
compared against `sourceParse`, which is written from the code):
required tags `format`/`file`/`info` present with types string/string/object;
`format` in \x7bcsv, xml\x7d; a string `header` present when format is xml;
`url`, if present, a string; `info.address` and `info.full_addr` not both
present; `info.address`, if present, an object whose keys are a subset of the
7 structured-address names; `force`, if present, an object whose keys are a
subset of \x7bcity, prov, country\x7d with no key also in `info.address`. -/
def C1SpecValid (md : List (String × JValue)) : Prop :=
  match jLookup md "format", jLookup md "file", jLookup md "info" with
  | some (.str fmt), some (.str _), some (.obj info) =>
      (fmt = "csv" ∨ fmt = "xml")
      ∧ (fmt = "xml" → specHeaderIsString md = true)
      ∧ specUrlOk md = true
      ∧ ¬((jLookup info "address").isSome ∧ (jLookup info "full_addr").isSome)
      ∧ specAddressOk info = true
      ∧ specForceOk md info = true
  | _, _, _ => False

instance (md : List (String × JValue)) : Decidable (C1SpecValid md) := by
  unfold C1SpecValid
  split <;> infer_instance

/-- Python's regex class `\s` on the ASCII range: space, tab, newline,
carriage return, vertical tab, form feed.  (Python's `\s` also matches some
further Unicode whitespace; none of the code paths verified here depend on
those characters.) -/
def isPySpace (c : Char) : Bool :=
  c == ' ' || c == '\t' || c == '\n' || c == '\r' || c == '\x0b' || c == '\x0c'

/-- `re.sub(r"\s+", " ", entry)` (src line 310): every maximal run of
whitespace characters is replaced by a single space.  A whitespace character
whose successor is also whitespace is dropped (the run continues); the last
character of a run becomes the single space. -/
def collapseWs : List Char → List Char
  | [] => []
  | c :: cs =>
    if isPySpace c then
      match cs with
      | c2 :: _ => if isPySpace c2 then collapseWs cs else ' ' :: collapseWs cs
      | [] => [' ']
    else c :: collapseWs cs

/-- `re.sub(r"^\s+([^\s].+)", r"\1", entry)` (src line 312).  The anchored
pattern matches a nonempty leading whitespace run followed by a non-space
character and then `.+`, i.e. at least one further character (`.` does not
match a newline; `_quick_scrub` applies this step after `collapseWs`, whose
output never contains a newline).  On a match the leading run is deleted;
when fewer than two characters follow the leading run the pattern fails and
the string is returned unchanged. -/
def pyStripLeading (l : List Char) : List Char :=
  match l.takeWhile isPySpace, l.dropWhile isPySpace with
  | [], _ => l
  | _ :: _, c :: d :: rest => if d == '\n' then l else c :: d :: rest
  | _ :: _, _ => l

/-- `re.sub(r"(.+[^\s])\s+$", r"\1", entry)` (src line 313).  On input
without newlines (guaranteed here because the step runs after `collapseWs`)
the pattern matches a trailing nonempty whitespace run preceded by a group of
at least two characters ending in a non-space; on a match the trailing run is
deleted, otherwise the string is unchanged. -/
def pyStripTrailing (l : List Char) : List Char :=
  let w := l.reverse.takeWhile isPySpace
  let p := (l.reverse.dropWhile isPySpace).reverse
  if w ≠ [] ∧ 2 ≤ p.length then p else l

/-- `re.sub(r"^\s+$", "", entry)` (src line 314): a string made entirely of
whitespace (and nonempty, since `\s+` needs one character) becomes empty. -/
def pyBlankAll (l : List Char) : List Char :=
  if l ≠ [] ∧ l.all isPySpace then [] else l

/-- `Algorithm._quick_scrub` (src lines 300-317): whitespace-run collapsing,
the two anchored trim substitutions, the all-blank substitution, then
`str.lower()` (modelled with `Char.toLower`, which agrees with Python on
ASCII).  Byte-string input (decoded first in the source) is modelled as the
already-decoded text. -/
def quick_scrub (entry : String) : String :=
  ⟨(pyBlankAll (pyStripTrailing (pyStripLeading
      (collapseWs entry.data)))).map Char.toLower⟩

/-- `Algorithm.char_encode_check` (src lines 239-275).  The raw file on disk
is abstracted by the predicate `decodes`, telling for an encoding name
whether the whole file decodes under it without error.
When the metadata declares an encoding, the source evaluates
`metadata.data['encoding']` (src line 261); `metadata` is a plain `dict`
(assigned from `json.load` in `Source.__init__`, src line 739) and has no
attribute `data`, so the access raises `AttributeError` before the declared
value can be inspected.  The dead remainder of that branch (return the value
when it is in `ENCODING_LIST`, otherwise raise `ValueError`) is therefore
unreachable.  Without a declared encoding, the encodings are tried in
`ENCODING_LIST` order and the first that decodes is returned; if none does,
`RuntimeError` is raised (src line 275). -/
def char_encode_check (declaredEncoding : Option String)
    (decodes : String → Bool) : Except PyErr String :=
  match declaredEncoding with
  | some _ => .error .attributeError
  | none =>
    match ENCODING_LIST.find? (fun enc => decodes enc) with
    | some enc => .ok enc
    | none => .error .runtimeError

/-- The substitution on src line 502, a `re.sub` whose pattern is the
byte-order mark `﻿` anchored at the start and followed by `(.+)`, with
the group as replacement: a leading byte-order mark on the first cell is
removed when at least one further character follows it and that character is
not a newline (`.` does not match newlines, and `.+` needs at least one
character); a cell consisting of the mark alone keeps it. -/
def bomStrip (s : String) : String :=
  match s.data with
  | '\ufeff' :: c :: rest => if c == '\n' then s else ⟨c :: rest⟩
  | _ => s

/-- The `while len(row) < size: row.append("")` loop of `format_correction`
(src lines 505-506): right-pad a row with empty strings up to `size`. -/
def padTo (size : Nat) (row : List String) : List String :=
  row ++ List.replicate (size - row.length) ""

/-- `CSV_Algorithm.format_correction` (src lines 480-513), on the row lists
produced by `csv.reader` / consumed by `csv.writer`.  The first iteration
assigns `row[0]` (an `IndexError` when the first row is empty, e.g. a file
beginning with a blank line), strips the byte-order mark, records the row's
length as the column count, and writes the row; every later row is
right-padded up to that count and written.  No row is dropped or
truncated. -/
def format_correction (rows : List (List String)) :
    Except PyErr (List (List String)) :=
  match rows with
  | [] => .ok []
  | first :: rest =>
    match first with
    | [] => .error .indexError
    | c0 :: cs =>
      let first1 := bomStrip c0 :: cs
      .ok (first1 :: rest.map (padTo first1.length))

/-- A locator value in the metadata `info` object: either a single
source-field locator (JSON string) or a JSON array of locators to be
concatenated.  The sentinel value `str "DPIFORCE"` is the forced marker that
`extract_labels` stores for forced fields. -/
inductive Locator where
  | str (s : String)
  | list (ls : List String)
deriving DecidableEq, Repr

/-- The parts of a validated metadata document that drive label extraction:
the `info` object (its plain field entries), the optional `address` object
nested inside `info` (one source locator per structured sub-field, as spec §3
describes the group), and the optional top-level `force` object (literal
values per forced field).  A field key maps to `Option.isSome` exactly when
the corresponding Python `in` test succeeds. -/
structure Meta where
  info : List (String × Locator)
  address : Option (List (String × String))
  force : Option (List (String × String))

/-- The third branch of the `extract_labels` precedence chain
(src lines 376-377 and 561-562): `'force' in metadata and i in
metadata['force']` stores the sentinel `'DPIFORCE'`. -/
def extractForce (m : Meta) (i : String) : Option Locator :=
  match m.force with
  | some f =>
    match List.lookup i f with
    | some _ => some (.str "DPIFORCE")
    | none => none
  | none => none

/-- One step of `CSV_Algorithm.extract_labels` (src lines 358-378) for field
name `i`: `info` entry (unless `i` is an address sub-field name), else the
`address` group entry, else the forced sentinel, else nothing. -/
def csvExtractLabel (m : Meta) (i : String) : Option Locator :=
  match List.lookup i m.info, decide (i ∈ ADDR_FIELD_LABEL) with
  | some v, false => some v
  | _, _ =>
    match m.address with
    | some a =>
      match List.lookup i a with
      | some s => some (.str s)
      | none => extractForce m i
    | none => extractForce m i

/-- `CSV_Algorithm.extract_labels` (src lines 358-378): walk `FIELD_LABEL`
in order, keeping the fields the chain resolves; the resulting association
list models the insertion-ordered Python dict `label_map`. -/
def csvExtractLabels (m : Meta) : List (String × Locator) :=
  FIELD_LABEL.filterMap (fun i => (csvExtractLabel m i).map (fun l => (i, l)))

/-- One step of `XML_Algorithm.extract_labels` (src lines 535-563): same
precedence chain as the CSV variant, but plain and address locators get the
XPath search pattern `".//"` prepended (each element of a list locator
individually), and the first branch additionally requires `i != 'address'`
(vacuous, since `'address'` is not in `FIELD_LABEL`). -/
def xmlExtractLabel (m : Meta) (i : String) : Option Locator :=
  match List.lookup i m.info, decide (i ∈ ADDR_FIELD_LABEL),
      decide (i = "address") with
  | some (.str s), false, false => some (.str (".//" ++ s))
  | some (.list ls), false, false => some (.list (ls.map (".//" ++ ·)))
  | _, _, _ =>
    match m.address with
    | some a =>
      match List.lookup i a with
      | some s => some (.str (".//" ++ s))
      | none => extractForce m i
    | none => extractForce m i

/-- `XML_Algorithm.extract_labels` (src lines 535-563). -/
def xmlExtractLabels (m : Meta) : List (String × Locator) :=
  FIELD_LABEL.filterMap (fun i => (xmlExtractLabel m i).map (fun l => (i, l)))

/-- `Algorithm._generateFirstRow` (src lines 282-289): the header row is the
label-map keys in order; when `full_addr` is among them it is removed and the
seven `ADDR_FIELD_LABEL` names are inserted at its position (the source
inserts them one by one in reverse, which lands them in order). -/
def generateFirstRow (tags : List (String × Locator)) : List String :=
  let row := tags.map Prod.fst
  if "full_addr" ∈ row then
    let ind := row.indexOf "full_addr"
    row.take ind ++ ADDR_FIELD_LABEL ++ row.drop (ind + 1)
  else row

/-- `Algorithm._isRowEmpty` (src lines 291-298): true when every entry is the
empty string. -/
def isRowEmpty (row : List String) : Bool :=
  row.all (fun element => element == "")

/-- `Algorithm._ADDR_LABEL_TO_POSTAL` (src lines 220-226): conversion from
standard address labels to libpostal tags (`prov` maps to `state`, the rest
map to themselves). -/
def ADDR_LABEL_TO_POSTAL (afl : String) : String :=
  if afl == "prov" then "state" else afl

/-- One cell of the address decomposition (src lines 433-438, repeated at
450-455, 620-625, 638-643): if the libpostal tag occurs among the labels of
the parsed tokens, take the token text at the first index where it occurs,
else the empty string.  `ap` is the parsed address token list, each token a
`(text, label)` pair. -/
def addrCell (ap : List (String × String)) (postal : String) : String :=
  let labels := ap.map Prod.snd
  if h : postal ∈ labels then
    (ap.get ⟨labels.indexOf postal, by
      have hlt := List.indexOf_lt_length.mpr h
      simpa [labels] using hlt⟩).1
  else ""

/-- The full 7-cell address decomposition loop
`for afl in self.ADDR_FIELD_LABEL: ...`: one cell per standard address
label, in `ADDR_FIELD_LABEL` order. -/
def decomposeAddr (ap : List (String × String)) : List String :=
  ADDR_FIELD_LABEL.map (fun afl => addrCell ap (ADDR_LABEL_TO_POSTAL afl))

/-- The text of the first parsed token carrying a given external label, empty
when no token does — the projection rule in the claim's words (spec §4.5),
for comparison with `decomposeAddr`. -/
def specFirstTokenText (ap : List (String × String)) (extLabel : String) :
    String :=
  match ap.find? (fun x => x.2 == extLabel) with
  | some t => t.1
  | none => ""

/-- A CSV record as produced by `csv.DictReader`: column name to cell text.
A subscript on a missing column raises `KeyError`. -/
def Record := List (String × String)

/-- The loop `entry = ''; for i in tags[key]: entry += entity[i] + ' '`
(src lines 419-421): concatenate the listed source values, each followed by a
space; a missing column raises `KeyError`. -/
def concatEntries (entity : Record) : List String → String →
    Except PyErr String
  | [], acc => .ok acc
  | i :: rest, acc =>
    match List.lookup i entity with
    | none => .error .keyError
    | some v => concatEntries entity rest (acc ++ v ++ " ")

/-- The cell(s) one label-map entry contributes to a CSV row, following the
branch structure of the loop body in `CSV_Algorithm.parse`
(src lines 410-469):
list locator not in `FORCE_LABEL` → concatenate, scrub, and either append
the one scrubbed string or (for `full_addr`) the 7 decomposed address cells;
key `full_addr` with a single locator → fetch, scrub, decompose;
the `'DPIFORCE'` sentinel → the source evaluates
`json_data['force'][key]` (src line 462), but no name `json_data` is defined
anywhere in the module, so the reference raises `NameError`;
otherwise → fetch the single column, scrub, append.
A list locator whose key is in `FORCE_LABEL` falls through every branch to
the plain-locator subscript `entity[tags[key]]` with a list as key, which
raises `TypeError` (unhashable key). -/
def csvResolveCell (parserFn : String → List (String × String))
    (entity : Record) (key : String) (loc : Locator) :
    Except PyErr (List String) :=
  match loc with
  | .list ls =>
    if key ∈ FORCE_LABEL then .error .typeError
    else
      match concatEntries entity ls "" with
      | .error e => .error e
      | .ok raw =>
        let entry := quick_scrub raw
        if key = "full_addr" then .ok (decomposeAddr (parserFn entry))
        else .ok [entry]
  | .str s =>
    if key = "full_addr" then
      match List.lookup s entity with
      | none => .error .keyError
      | some v => .ok (decomposeAddr (parserFn (quick_scrub v)))
    else if s = "DPIFORCE" then .error .nameError
    else
      match List.lookup s entity with
      | none => .error .keyError
      | some v => .ok [quick_scrub v]

/-- The inner loop `for key in tags:` of `CSV_Algorithm.parse` for one
record: build the row by appending each entry's cells in label-map order.
An error carries the locator `tags[key]` of the entry being processed, which
is what the `except KeyError` clause prints (src line 473). -/
def csvResolveRow (parserFn : String → List (String × String))
    (tags : List (String × Locator)) (entity : Record) :
    Except (PyErr × Locator) (List String) :=
  tags.foldl
    (fun acc kv =>
      match acc with
      | .error e => .error e
      | .ok row =>
        match csvResolveCell parserFn entity kv.1 kv.2 with
        | .error e => .error (e, kv.2)
        | .ok cells => .ok (row ++ cells))
    (.ok [])

/-- How a run of the record loop ends: all records processed (`normal`), a
`KeyError` caught by the `except` clause around the CSV loop — which prints
the offending locator and falls out of the loop (`caughtKey`) — or any other
exception propagating out of `parse` (`raised`). -/
inductive RunExit where
  | normal
  | caughtKey (loc : Locator)
  | raised (e : PyErr)
deriving DecidableEq, Repr

/-- The record loop of `CSV_Algorithm.parse` (src lines 408-473): rows that
are not entirely empty are written in record order after the already-written
header; a `KeyError` stops the loop and is caught (the partially built row is
discarded); any other exception propagates.  Returns the rows written so far
together with how the loop ended. -/
def csvParseGo (parserFn : String → List (String × String))
    (tags : List (String × Locator)) :
    List Record → List (List String) → List (List String) × RunExit
  | [], written => (written, .normal)
  | entity :: rest, written =>
    match csvResolveRow parserFn tags entity with
    | .ok row =>
      csvParseGo parserFn tags rest
        (if isRowEmpty row then written else written ++ [row])
    | .error (.keyError, loc) => (written, .caughtKey loc)
    | .error (e, _) => (written, .raised e)

/-- The two on-disk artifacts `parse` touches: the canonical intermediate
("dirty") file and its sibling temp file.  `none` means the file does not
exist (or, for `dirtyFile`, holds its pre-transform content — the model keeps
whatever was there). -/
structure PipeFS where
  dirtyFile : Option (List (List String))
  tempFile : Option (List (List String))
deriving DecidableEq, Repr

/-- `CSV_Algorithm.parse` (src lines 381-477) as a file-system transformer.
The header row is written to the sibling temp file first; then the record
loop runs.  When `parse` returns normally — which includes the caught
`KeyError` case, since the `except` clause only prints — the closing
`os.rename(source.dirtypath + '-temp', source.dirtypath)` (src line 477)
moves the temp file over the canonical dirty path.  When another exception
propagates, the `with` block closes both files, the rename never runs, the
temp file is left holding what was written, and the canonical file keeps its
previous content. -/
def csvParseFS (parserFn : String → List (String × String))
    (tags : List (String × Locator)) (records : List Record)
    (fs : PipeFS) : PipeFS × RunExit :=
  let run := csvParseGo parserFn tags records [generateFirstRow tags]
  match run.2 with
  | .raised e => ({ fs with tempFile := some run.1 }, .raised e)
  | ex => ({ dirtyFile := some run.1, tempFile := none }, ex)

/-- An XML element as walked by `xml.etree`: optional text and child
elements.  `ElementTree.find` with the `".//tag"` search patterns that
`extract_labels` builds is abstracted as first-match lookup of the pattern
among the element's entries (the XPath engine itself is outside the
module). -/
inductive XmlElem where
  | node (text : Option String) (kids : List (String × XmlElem))

/-- The element's own text (`element.text`, `None` for an empty element). -/
def XmlElem.textOf : XmlElem → Option String
  | .node t _ => t

/-- `element.find(pattern)`: the first matching subelement, or `None`. -/
def XmlElem.findPath : XmlElem → String → Option XmlElem
  | .node _ kids, pat => (kids.find? (fun kv => kv.1 == pat)).map Prod.snd

/-- `XML_Algorithm._xml_empty_element_handler` (src lines 676-697): a missing
element or an element without text yields the empty string, otherwise the
element's text. -/
def xml_empty_element_handler : Option XmlElem → String
  | none => ""
  | some e =>
    match e.textOf with
    | some t => t
    | none => ""

/-- The loop `for i in tags[key]: subelement = element.find(i); ...`
(src lines 604-608): concatenate the handled text of each listed search
pattern, each followed by a space; never an error. -/
def xmlConcatEntries (element : XmlElem) : List String → String → String
  | [], acc => acc
  | i :: rest, acc =>
    xmlConcatEntries element rest
      (acc ++ xml_empty_element_handler (element.findPath i) ++ " ")

/-- The cell(s) one label-map entry contributes to an XML row, following the
branch structure of the loop body in `XML_Algorithm.parse`
(src lines 596-658).  Missing or empty elements flow through
`_xml_empty_element_handler` and never raise.  The `'DPIFORCE'` sentinel
evaluates `json_data['force'][key]` (src line 650) and raises `NameError`
just as in the CSV variant (`json_data` is undefined).  A list locator on a
`FORCE_LABEL` key falls through to `element.find(tags[key])` with a list
argument, a `TypeError`. -/
def xmlResolveCell (parserFn : String → List (String × String))
    (element : XmlElem) (key : String) (loc : Locator) :
    Except PyErr (List String) :=
  match loc with
  | .list ls =>
    if key ∈ FORCE_LABEL then .error .typeError
    else
      let entry := quick_scrub (xmlConcatEntries element ls "")
      if key = "full_addr" then .ok (decomposeAddr (parserFn entry))
      else .ok [entry]
  | .str s =>
    if key = "full_addr" then
      .ok (decomposeAddr (parserFn
        (quick_scrub (xml_empty_element_handler (element.findPath s)))))
    else if s = "DPIFORCE" then .error .nameError
    else .ok [quick_scrub (xml_empty_element_handler (element.findPath s))]

/-- The inner loop `for key in tags:` of `XML_Algorithm.parse` for one
record element. -/
def xmlResolveRow (parserFn : String → List (String × String))
    (tags : List (String × Locator)) (element : XmlElem) :
    Except (PyErr × Locator) (List String) :=
  tags.foldl
    (fun acc kv =>
      match acc with
      | .error e => .error e
      | .ok row =>
        match xmlResolveCell parserFn element kv.1 kv.2 with
        | .error e => .error (e, kv.2)
        | .ok cells => .ok (row ++ cells))
    (.ok [])

/-- The record loop of `XML_Algorithm.parse` (src lines 594-660): like the
CSV loop, but with no `try`/`except` — every exception propagates. -/
def xmlParseGo (parserFn : String → List (String × String))
    (tags : List (String × Locator)) :
    List XmlElem → List (List String) → List (List String) × RunExit
  | [], written => (written, .normal)
  | element :: rest, written =>
    match xmlResolveRow parserFn tags element with
    | .ok row =>
      xmlParseGo parserFn tags rest
        (if isRowEmpty row then written else written ++ [row])
    | .error (e, _) => (written, .raised e)

/-- `XML_Algorithm.parse` (src lines 566-660) as a file-system transformer.
The output is opened directly at the canonical dirty path
(`open(source.dirtypath, 'w')`, src line 586) — there is no temp file and no
rename — so whatever was written before a propagating exception is what the
canonical file holds afterwards.  `records` abstracts
`root.iter(header)`. -/
def xmlParseFS (parserFn : String → List (String × String))
    (tags : List (String × Locator)) (records : List XmlElem)
    (fs : PipeFS) : PipeFS × RunExit :=
  let run := xmlParseGo parserFn tags records [generateFirstRow tags]
  ({ fs with dirtyFile := some run.1 }, run.2)

/-- Whether `Source.parse` returned normally (no exception raised). -/
def accepted : Except SchemaError Paths → Bool
  | .ok _ => true
  | .error _ => false

/-! ## Theorems -/

theorem isStr_str (s : String) : (JValue.str s).isStr = true := rfl

theorem isObj_obj (f : List (String × JValue)) : (JValue.obj f).isObj = true :=
  rfl

theorem strVal_str (s : String) : (JValue.str s).strVal = s := rfl

theorem objFields_obj (f : List (String × JValue)) :
    (JValue.obj f).objFields = f := rfl

theorem parseForce_accepts (md info : List (String × JValue)) :
    accepted (sourceParseForce md info) = specForceOk md info := by
  unfold sourceParseForce specForceOk sourceParsePaths
  cases h : jLookup md "force" with
  | none => rfl
  | some fv =>
    cases h1 : fv.isObj <;>
    cases h2 : fv.objFields.all (fun kv => decide (kv.1 ∈ FORCE_LABEL)) <;>
    cases h3 : fv.objFields.any (fun kv =>
        ((jLookup info "address").getD .null).objFields.any
          (fun akv => akv.1 == kv.1)) <;>
    simp [h1, h2, h3, accepted]

theorem specHeaderIsString_eq (md : List (String × JValue)) :
    specHeaderIsString md =
      (!(jLookup md "header").isNone &&
        ((jLookup md "header").getD .null).isStr) := by
  unfold specHeaderIsString
  cases h : jLookup md "header" <;> simp

theorem specUrlOk_eq (md : List (String × JValue)) :
    specUrlOk md =
      !(match jLookup md "url" with
        | some u => !u.isStr
        | none => false) := by
  unfold specUrlOk
  cases h : jLookup md "url" <;> simp

theorem c1_iff (md : List (String × JValue)) :
    accepted (sourceParse md) = true ↔ C1SpecValid md := by
  unfold sourceParse C1SpecValid
  cases hf : jLookup md "format" with
  | none => simp [accepted]
  | some fmtv =>
  cases hfile : jLookup md "file" with
  | none => cases fmtv <;> simp [JValue.isStr, accepted]
  | some filev =>
  cases hinfo : jLookup md "info" with
  | none => cases fmtv <;> cases filev <;> simp [JValue.isStr, JValue.isObj, accepted]
  | some infov =>
  cases fmtv with
  | str fmt =>
    cases filev with
    | str f =>
      cases infov with
      | obj io =>
        simp only [isStr_str, isObj_obj, strVal_str, objFields_obj,
          Bool.not_true, Bool.false_eq_true, if_false]
        by_cases h1 : fmt ≠ "xml" ∧ fmt ≠ "csv"
        · rw [if_pos h1]
          simp only [accepted, Bool.false_eq_true, false_iff]
          rintro ⟨hcx | hcx, -⟩ <;> [exact h1.2 hcx; exact h1.1 hcx]
        · rw [if_neg h1]
          by_cases h2 : fmt ≠ "csv" ∧ (jLookup md "header").isNone = true
          · rw [if_pos h2]
            simp only [accepted, Bool.false_eq_true, false_iff]
            rintro ⟨hc, hh, -⟩
            rcases hc with hc | hc
            · exact h2.1 hc
            · have := hh hc
              rw [specHeaderIsString_eq] at this
              simp [h2.2] at this
          · rw [if_neg h2]
            by_cases h3 : fmt ≠ "csv" ∧
                (!(((jLookup md "header").getD .null).isStr)) = true
            · rw [if_pos h3]
              simp only [accepted, Bool.false_eq_true, false_iff]
              rintro ⟨hc, hh, -⟩
              rcases hc with hc | hc
              · exact h3.1 hc
              · have := hh hc
                rw [specHeaderIsString_eq] at this
                simp only [Bool.and_eq_true, Bool.not_eq_true] at this
                simp [this.2] at h3
            · rw [if_neg h3]
              by_cases h4 : (match jLookup md "url" with
                  | some u => !u.isStr
                  | none => false) = true
              · rw [if_pos h4]
                simp only [accepted, Bool.false_eq_true, false_iff]
                rintro ⟨-, -, hu, -⟩
                rw [specUrlOk_eq, h4] at hu
                simp at hu
              · rw [if_neg h4]
                by_cases h5 : (jLookup io "address").isSome = true ∧
                    (jLookup io "full_addr").isSome = true
                · rw [if_pos h5]
                  simp only [accepted, Bool.false_eq_true, false_iff]
                  rintro ⟨-, -, -, hna, -⟩
                  exact hna h5
                · rw [if_neg h5]
                  have hfmt : fmt = "csv" ∨ fmt = "xml" := by
                    by_cases hc : fmt = "csv"
                    · exact Or.inl hc
                    · right
                      by_contra hx
                      exact h1 ⟨hx, hc⟩
                  have hheader : fmt = "xml" → specHeaderIsString md = true := by
                    intro hx
                    have hnc : fmt ≠ "csv" := by
                      rw [hx]; decide
                    rw [specHeaderIsString_eq]
                    have hnn : ¬((jLookup md "header").isNone = true) :=
                      fun hn => h2 ⟨hnc, hn⟩
                    have hstr : ¬((!(((jLookup md "header").getD .null).isStr)) = true) :=
                      fun hs => h3 ⟨hnc, hs⟩
                    simp only [Bool.not_eq_true] at hnn
                    have hstr2 : (((jLookup md "header").getD .null).isStr) = true := by
                      simpa using hstr
                    simp [hnn, hstr2]
                  have hurl : specUrlOk md = true := by
                    rw [specUrlOk_eq]
                    simp only [Bool.not_eq_true] at h4 ⊢
                    simp [h4]
                  cases haddr : jLookup io "address" with
                  | none =>
                    have haok : specAddressOk io = true := by
                      simp [specAddressOk, haddr]
                    rw [parseForce_accepts]
                    constructor
                    · intro h6
                      refine ⟨hfmt, hheader, hurl, ?_, haok, h6⟩
                      intro hb
                      exact h5 (by rw [haddr]; exact hb)
                    · rintro ⟨-, -, -, -, -, h6⟩
                      exact h6
                  | some av =>
                    dsimp only
                    by_cases ha1 : av.isObj = true
                    · rw [if_neg (by simp [ha1])]
                      by_cases ha2 : (av.objFields.all
                          (fun kv => decide (kv.1 ∈ ADDR_FIELD_LABEL))) = true
                      · rw [if_neg (by simp [ha2])]
                        have haok : specAddressOk io = true := by
                          simp [specAddressOk, haddr, ha1, ha2]
                        rw [parseForce_accepts]
                        constructor
                        · intro h6
                          refine ⟨hfmt, hheader, hurl, ?_, haok, h6⟩
                          intro hb
                          exact h5 (by rw [haddr]; exact hb)
                        · rintro ⟨-, -, -, -, -, h6⟩
                          exact h6
                      · rw [if_pos (by simp [ha2])]
                        simp only [accepted, Bool.false_eq_true, false_iff]
                        rintro ⟨-, -, -, -, hA, -⟩
                        simp [specAddressOk, haddr, ha1, ha2] at hA
                    · rw [if_pos (by simp [ha1])]
                      simp only [accepted, Bool.false_eq_true, false_iff]
                      rintro ⟨-, -, -, -, hA, -⟩
                      simp [specAddressOk, haddr, ha1] at hA
      | _ => simp [JValue.isStr, JValue.isObj, accepted]
    | _ => cases infov <;> simp [JValue.isStr, JValue.isObj, accepted]
  | _ => cases filev <;> cases infov <;> simp [JValue.isStr, JValue.isObj, accepted]

theorem force_ok_paths (md info : List (String × JValue)) (ps : Paths)
    (h : sourceParseForce md info = .ok ps) :
    ps = mkPaths (((jLookup md "file").getD .null).strVal) := by
  unfold sourceParseForce sourceParsePaths at h
  repeat' split at h
  all_goals cases h
  all_goals rfl

set_option maxHeartbeats 2000000 in
theorem sourceParse_ok_paths (md : List (String × JValue)) (ps : Paths)
    (h : sourceParse md = .ok ps) :
    ps = mkPaths (((jLookup md "file").getD .null).strVal) := by
  unfold sourceParse at h
  repeat' split at h
  all_goals first
    | (cases h)
    | (exact force_ok_paths _ _ _ h)

/-- C1: for every metadata document, `Source.parse` accepts — and only then
derives the raw/intermediate/clean paths from the declared file name — if and
only if all structural rules of spec §4.1 hold (`C1SpecValid`); the three
violation categories carry distinct error kinds, witnessed here by a
missing-tag document raising `LookupError`, a wrong-type document raising
`TypeError`, and an invalid-value document raising `ValueError`. -/
theorem c1_metadata_validator :
    (∀ md, accepted (sourceParse md) = true ↔ C1SpecValid md)
    ∧ (∀ md ps, sourceParse md = .ok ps →
        ps = mkPaths (((jLookup md "file").getD .null).strVal))
    ∧ sourceParse [("file", .str "a"), ("info", .obj [])] =
        .error (.lookupError "format tag is missing.")
    ∧ sourceParse [("format", .num 5), ("file", .str "a"), ("info", .obj [])] =
        .error (.typeError "format must be a string.")
    ∧ sourceParse [("format", .str "tsv"), ("file", .str "a"),
        ("info", .obj [])] =
        .error (.valueError "Unsupported data format.") :=
  ⟨c1_iff, sourceParse_ok_paths, by decide, by decide, by decide⟩

/-- Witness for C1: a concrete valid document is accepted, via the theorem's
equivalence with the §4.1 rules. -/
theorem c1_metadata_validator_witness :
    accepted (sourceParse [("format", JValue.str "csv"),
      ("file", JValue.str "a.csv"),
      ("info", JValue.obj [("bus_name", JValue.str "Name")])]) = true :=
  (c1_metadata_validator.1 _).mpr (by decide)

/-- C2 (code bug): when the metadata declares an encoding, the claim says the
supported value is returned (and an unsupported one rejected as invalid), but
`char_encode_check` evaluates `metadata.data['encoding']` on a plain dict and
raises `AttributeError` for every declared encoding, supported or not — the
documented declared-encoding behaviour is unreachable.  The heuristic branch
behaves as claimed: the first encoding in priority order under which the file
decodes is returned, and `RuntimeError` is raised when none succeeds. -/
theorem c2_encoding_detector :
    (∀ decodes : String → Bool,
      char_encode_check (some "utf-8") decodes = .error .attributeError)
    ∧ (∀ decodes : String → Bool,
      char_encode_check (some "latin-1") decodes = .error .attributeError)
    ∧ char_encode_check none (fun enc => enc == "cp1252" || enc == "cp437") =
        .ok "cp1252"
    ∧ char_encode_check none (fun _ => false) = .error .runtimeError :=
  ⟨fun _ => rfl, fun _ => rfl, by decide, by decide⟩

/-- C10 (code bug): the scrubber's trim substitutions require at least two
characters around the whitespace run, so a single non-space character keeps
its leading or trailing space — `quick_scrub " a"` begins with whitespace and
`quick_scrub "A "` ends with whitespace, contradicting the claim (and the
source's own comment "remove spaces occuring at the beginning and end of an
entry").  Longer inputs are collapsed, trimmed and lower-cased as claimed. -/
theorem c10_quick_scrub_trim_failure :
    quick_scrub " a" = " a"
    ∧ quick_scrub "A " = "a "
    ∧ (quick_scrub " a").data.head? = some ' '
    ∧ quick_scrub "  Hello   World  " = "hello world"
    ∧ quick_scrub "   " = "" :=
  ⟨by decide, by decide, by decide, by decide, by decide⟩

theorem addrCell_eq_first (ap : List (String × String)) (postal : String) :
    addrCell ap postal = specFirstTokenText ap postal := by
  induction ap with
  | nil => simp [addrCell, specFirstTokenText]
  | cons t rest ih =>
    by_cases h : t.2 = postal
    · simp [addrCell, specFirstTokenText, h, List.indexOf_cons_self]
    · have hfind : List.find? (fun x => x.2 == postal) (t :: rest) =
          List.find? (fun x => x.2 == postal) rest :=
        List.find?_cons_of_neg _ (by simpa using h)
      by_cases hm : postal ∈ List.map Prod.snd rest
      · have hmem : postal ∈ List.map Prod.snd (t :: rest) := by
          simp [hm]
        have hidx : List.indexOf postal (List.map Prod.snd (t :: rest)) =
            (List.indexOf postal (List.map Prod.snd rest)) + 1 := by
          simp [List.indexOf_cons_ne _ h]
        simp only [addrCell, specFirstTokenText, hfind, dif_pos hmem,
          dif_pos hm] at ih ⊢
        rw [← ih]
        simp only [List.get_eq_getElem, hidx, List.getElem_cons_succ]
      · have hnmem : postal ∉ List.map Prod.snd (t :: rest) := by
          simp only [List.map_cons, List.mem_cons, not_or]
          exact ⟨fun hc => h hc.symm, hm⟩
        simp only [addrCell, specFirstTokenText, hfind, dif_neg hnmem,
          dif_neg hm] at ih ⊢
        exact ih

/-- C4: for every parsed-address token list, the decomposition appends
exactly 7 cells in the fixed order unit, house_number, road, city, prov,
country, postcode, each cell the text of the first token whose label matches
the field's external label (`prov` matching the external label `state`), and
the empty string when no token matches. -/
theorem c4_address_decomposer (ap : List (String × String)) :
    (decomposeAddr ap).length = 7
    ∧ decomposeAddr ap =
      [specFirstTokenText ap "unit", specFirstTokenText ap "house_number",
       specFirstTokenText ap "road", specFirstTokenText ap "city",
       specFirstTokenText ap "state", specFirstTokenText ap "country",
       specFirstTokenText ap "postcode"] := by
  constructor
  · simp [decomposeAddr, ADDR_FIELD_LABEL]
  · simp [decomposeAddr, ADDR_FIELD_LABEL, addrCell_eq_first,
      ADDR_LABEL_TO_POSTAL]

/-- C3 counterexample: the claim quantifies over every CSV input and asserts
no row is ever dropped, but on an input whose first row is empty (a raw file
beginning with a blank line) the pass evaluates `row[0]` on an empty list and
raises `IndexError` — no output is produced at all. -/
theorem c3_counterexample :
    format_correction [[], ["a"]] = .error .indexError
    ∧ ¬∃ out, format_correction [[], ["a"]] = .ok out := by
  refine ⟨by decide, ?_⟩
  rintro ⟨out, hout⟩
  rw [show format_correction [[], ["a"]] = .error .indexError by decide]
    at hout
  cases hout

/-- C3 (amended): for every CSV input whose first row is nonempty, the repair
pass drops no rows, emits the first row unchanged except for byte-order-mark
removal on its first cell (removal happens when at least one character
follows the mark), right-pads every subsequent shorter row with empty strings
to the first row's length, passes longer rows through unmodified, and every
output row's length is at least the first row's length.  (On an input whose
first row is empty the pass raises `IndexError`, per `c3_counterexample`.) -/
theorem c3_csv_repair_amended (first : List String)
    (rest : List (List String)) (h : first ≠ []) :
    ∃ out, format_correction (first :: rest) = .ok out
      ∧ out.length = rest.length + 1
      ∧ (∃ c0 cs, first = c0 :: cs ∧ out.head? = some (bomStrip c0 :: cs))
      ∧ out.tail = rest.map (padTo first.length)
      ∧ (∀ r ∈ rest, first.length ≤ r.length → padTo first.length r = r)
      ∧ (∀ r ∈ out, first.length ≤ r.length) := by
  match first, h with
  | c0 :: cs, _ =>
    refine ⟨(bomStrip c0 :: cs) :: rest.map (padTo (c0 :: cs).length),
      rfl, by simp, ⟨c0, cs, rfl, rfl⟩, rfl, ?_, ?_⟩
    · intro r _ hlen
      simp only [List.length_cons] at hlen
      simp [padTo, Nat.sub_eq_zero_of_le hlen]
    · intro r hr
      rcases List.mem_cons.mp hr with hr | hr
      · subst hr
        simp
      · rcases List.mem_map.mp hr with ⟨s, _, rfl⟩
        simp only [padTo, List.length_append, List.length_replicate,
          List.length_cons]
        omega

/-- Witness for C3 (amended): the concrete repair of a file with a
byte-order mark and a ragged second row succeeds and keeps both rows. -/
theorem c3_csv_repair_amended_witness :
    ∃ out, format_correction [["﻿a", "b"], ["x"]] = .ok out
      ∧ out.length = 1 + 1 := by
  rcases c3_csv_repair_amended ["﻿a", "b"] [["x"]] (by decide)
    with ⟨out, h1, h2, -⟩
  exact ⟨out, h1, h2⟩

theorem csvExtractLabel_none (m : Meta) (i : String) (haddr : m.address = none)
    (hforce : m.force = none)
    (hi : i ∈ ADDR_FIELD_LABEL ∨ List.lookup i m.info = none) :
    csvExtractLabel m i = none := by
  unfold csvExtractLabel extractForce
  rw [haddr, hforce]
  rcases hi with hi | hi
  · have hd : decide (i ∈ ADDR_FIELD_LABEL) = true := by simpa using hi
    rw [hd]
    cases List.lookup i m.info <;> rfl
  · rw [hi]

theorem csvExtractLabels_key_some (m : Meta) (f : String)
    (hf : f ∈ (csvExtractLabels m).map Prod.fst) :
    csvExtractLabel m f ≠ none := by
  rcases List.mem_map.mp hf with ⟨⟨k, l⟩, hk, rfl⟩
  rcases List.mem_filterMap.mp hk with ⟨i, _, hmap⟩
  cases hcl : csvExtractLabel m i with
  | none => rw [hcl] at hmap; cases hmap
  | some v =>
    rw [hcl] at hmap
    simp at hmap
    rcases hmap with ⟨rfl, rfl⟩
    simp [hcl]

theorem csvParseGo_all_ok (parserFn : String → List (String × String))
    (tags : List (String × Locator)) :
    ∀ (records : List Record) (rows written : List (List String)),
      records.map (csvResolveRow parserFn tags) = rows.map Except.ok →
      csvParseGo parserFn tags records written =
        (written ++ rows.filter (fun r => !isRowEmpty r), .normal) := by
  intro records
  induction records with
  | nil =>
    intro rows written h
    cases rows with
    | nil => simp [csvParseGo]
    | cons r rs => simp at h
  | cons e rest ih =>
    intro rows written h
    cases rows with
    | nil => simp at h
    | cons row rrest =>
      simp only [List.map_cons, List.cons.injEq] at h
      obtain ⟨h1, h2⟩ := h
      cases he : isRowEmpty row with
      | true =>
        simp only [csvParseGo, h1, he, if_true]
        rw [ih rrest written h2]
        simp [List.filter_cons, he]
      | false =>
        simp only [csvParseGo, h1, he, Bool.false_eq_true, if_false]
        rw [ih rrest (written ++ [row]) h2]
        simp [List.filter_cons, he]

theorem xmlParseGo_all_ok (parserFn : String → List (String × String))
    (tags : List (String × Locator)) :
    ∀ (records : List XmlElem) (rows written : List (List String)),
      records.map (xmlResolveRow parserFn tags) = rows.map Except.ok →
      xmlParseGo parserFn tags records written =
        (written ++ rows.filter (fun r => !isRowEmpty r), .normal) := by
  intro records
  induction records with
  | nil =>
    intro rows written h
    cases rows with
    | nil => simp [xmlParseGo]
    | cons r rs => simp at h
  | cons e rest ih =>
    intro rows written h
    cases rows with
    | nil => simp at h
    | cons row rrest =>
      simp only [List.map_cons, List.cons.injEq] at h
      obtain ⟨h1, h2⟩ := h
      cases he : isRowEmpty row with
      | true =>
        simp only [xmlParseGo, h1, he, if_true]
        rw [ih rrest written h2]
        simp [List.filter_cons, he]
      | false =>
        simp only [xmlParseGo, h1, he, Bool.false_eq_true, if_false]
        rw [ih rrest (written ++ [row]) h2]
        simp [List.filter_cons, he]

/-- C5 (code bug): a CSV record lacking the column named by a declared
locator raises `KeyError`, which the `except` clause catches (reporting the
offending locator, here `"Name"`); the record loop stops, but `parse` then
falls through to the unconditional `os.rename` (src line 477), so the
partially-written temp file — here just the header row — is renamed over the
canonical dirty path: a standardized output file IS produced, contrary to the
claim's "no standardized output file is produced" (and to the source's own
"# success" comment on the rename and "DEBUG: need a safe way to exit from
here" note in the except clause).  The XML half of the claim holds: a locator
whose element is missing or has no text resolves to the empty string and
never raises. -/
theorem c5_missing_csv_column :
    csvParseFS (fun _ => []) [("bus_name", Locator.str "Name")]
        [[("Other", "x")]] ⟨none, none⟩ =
      (⟨some [["bus_name"]], none⟩, .caughtKey (.str "Name"))
    ∧ (∀ (pf : String → List (String × String)) (key s : String)
        (elem : XmlElem), elem.findPath s = none → key ≠ "full_addr" →
        s ≠ "DPIFORCE" → xmlResolveCell pf elem key (.str s) = .ok [""])
    ∧ xmlResolveRow (fun _ => []) [("bus_name", Locator.str ".//Name")]
        (.node none []) = .ok [""] := by
  refine ⟨by decide, ?_, by decide⟩
  intro pf key s elem hfind hkey hs
  simp only [xmlResolveCell, if_neg hkey, if_neg hs, hfind]
  decide

/-- Witness for C5's universally quantified XML conjunct: a concrete missing
element resolves to one empty cell. -/
theorem c5_missing_csv_column_witness :
    xmlResolveCell (fun _ => []) (.node (some "t") [(".//A", .node none [])])
      "bus_name" (.str ".//B") = .ok [""] :=
  c5_missing_csv_column.2.1 (fun _ => []) "bus_name" ".//B"
    (.node (some "t") [(".//A", .node none [])]) rfl (by decide) (by decide)

/-- C6 (code bug): with `force = \x7b"country": "canada"\x7d` and `country`
absent from `info`, label extraction stores the forced sentinel as claimed,
but on the first record both transformer variants evaluate
`json_data['force'][key]` (src lines 462 and 650) — and no name `json_data`
is defined anywhere in the module, so a `NameError` propagates out of
`parse`: no row ever receives the forced value `canada`.  For the CSV
variant the exception skips the rename, leaving only the temp file; the XML
variant leaves the canonical dirty file holding just the header row. -/
theorem c6_forced_country_name_error :
    csvExtractLabels ⟨[("bus_name", .str "Name")], none,
        some [("country", "canada")]⟩ =
      [("bus_name", .str "Name"), ("country", .str "DPIFORCE")]
    ∧ csvParseFS (fun _ => [])
        [("bus_name", Locator.str "Name"), ("country", Locator.str "DPIFORCE")]
        [[("Name", "Acme")]] ⟨none, none⟩ =
      (⟨none, some [["bus_name", "country"]]⟩, .raised .nameError)
    ∧ xmlParseFS (fun _ => [])
        (xmlExtractLabels ⟨[("bus_name", .str "Name")], none,
          some [("country", "canada")]⟩)
        [.node none [(".//Name", .node (some "Acme") [])]] ⟨none, none⟩ =
      (⟨some [["bus_name", "country"]], none⟩, .raised .nameError) :=
  ⟨by decide, by decide, by decide⟩

/-- C7 counterexample: the claim says both variants write to a sibling temp
path and rename only on full success, so a failed transform leaves the
canonical intermediate file untouched.  The XML variant opens the canonical
dirty path directly (src line 586); on this input the transform fails with
`NameError` after writing the header row, and the canonical dirty file —
absent before the transform — is left holding that half-written output. -/
theorem c7_counterexample :
    xmlParseFS (fun _ => []) [("country", Locator.str "DPIFORCE")]
        [.node none []] ⟨none, none⟩ =
      (⟨some [["country"]], none⟩, .raised .nameError)
    ∧ ((xmlParseFS (fun _ => []) [("country", Locator.str "DPIFORCE")]
        [.node none []] ⟨none, none⟩).1.dirtyFile).isSome = true
    ∧ ((⟨none, none⟩ : PipeFS).dirtyFile).isSome = false :=
  ⟨by decide, by decide, by decide⟩

/-- C7 (amended): the CSV variant writes to a sibling temp path and renames
it over the canonical path whenever the `parse` call returns — on full
success and equally after a caught field-lookup error, so a partial output
can be renamed into place; only a propagating exception leaves the canonical
file untouched (with the partial temp file still on disk).  The XML variant
writes directly to the canonical intermediate path with no temp file and no
rename, so the canonical file always holds whatever was written up to the
point the record loop stopped. -/
theorem c7_write_discipline_amended :
    (∀ (parserFn : String → List (String × String))
      (tags : List (String × Locator)) (records : List Record) (fs : PipeFS)
      (e : PyErr),
      (csvParseGo parserFn tags records [generateFirstRow tags]).2 =
          .raised e →
      csvParseFS parserFn tags records fs =
        (⟨fs.dirtyFile, some (csvParseGo parserFn tags records
            [generateFirstRow tags]).1⟩, .raised e))
    ∧ (∀ (parserFn : String → List (String × String))
      (tags : List (String × Locator)) (records : List Record) (fs : PipeFS)
      (loc : Locator),
      (csvParseGo parserFn tags records [generateFirstRow tags]).2 =
          .caughtKey loc →
      csvParseFS parserFn tags records fs =
        (⟨some (csvParseGo parserFn tags records
            [generateFirstRow tags]).1, none⟩, .caughtKey loc))
    ∧ (∀ (parserFn : String → List (String × String))
      (tags : List (String × Locator)) (records : List Record) (fs : PipeFS),
      (csvParseGo parserFn tags records [generateFirstRow tags]).2 =
          .normal →
      csvParseFS parserFn tags records fs =
        (⟨some (csvParseGo parserFn tags records
            [generateFirstRow tags]).1, none⟩, .normal))
    ∧ (∀ (parserFn : String → List (String × String))
      (tags : List (String × Locator)) (xrecords : List XmlElem)
      (fs : PipeFS),
      xmlParseFS parserFn tags xrecords fs =
        (⟨some (xmlParseGo parserFn tags xrecords
            [generateFirstRow tags]).1, fs.tempFile⟩,
         (xmlParseGo parserFn tags xrecords [generateFirstRow tags]).2)) := by
  refine ⟨?_, ?_, ?_, ?_⟩
  · intro parserFn tags records fs e h
    simp [csvParseFS, h]
  · intro parserFn tags records fs loc h
    simp [csvParseFS, h]
  · intro parserFn tags records fs h
    simp [csvParseFS, h]
  · intro parserFn tags xrecords fs
    simp [xmlParseFS]

/-- Witness for C7 (amended): on a propagating `NameError` the CSV variant
leaves a pre-existing canonical file untouched and the partial temp file on
disk. -/
theorem c7_write_discipline_amended_witness :
    csvParseFS (fun _ => []) [("country", Locator.str "DPIFORCE")]
        [[("x", "y")]] ⟨some [["pre"]], none⟩ =
      (⟨some [["pre"]],
        some (csvParseGo (fun _ => []) [("country", Locator.str "DPIFORCE")]
          [[("x", "y")]]
          [generateFirstRow [("country", Locator.str "DPIFORCE")]]).1⟩,
       .raised .nameError) :=
  c7_write_discipline_amended.1 (fun _ => [])
    [("country", Locator.str "DPIFORCE")] [[("x", "y")]]
    ⟨some [["pre"]], none⟩ .nameError (by decide)

/-- C8 counterexample: for a validated document whose `info` declares only
`bus_name` (no `full_addr`, no `address` group, no `force`), the header row
is just `["bus_name"]` — the 7 structured-address columns are absent from the
transformer's output, not present as empty strings; the emitted data row has
a single cell. -/
theorem c8_counterexample :
    generateFirstRow (csvExtractLabels
        ⟨[("bus_name", Locator.str "Name")], none, none⟩) = ["bus_name"]
    ∧ (generateFirstRow (csvExtractLabels
        ⟨[("bus_name", Locator.str "Name")], none, none⟩)).contains "city" =
      false
    ∧ csvParseFS (fun _ => [])
        (csvExtractLabels ⟨[("bus_name", Locator.str "Name")], none, none⟩)
        [[("Name", "Acme")]] ⟨none, none⟩ =
      (⟨some [["bus_name"], ["acme"]], none⟩, .normal) :=
  ⟨by decide, by decide, by decide⟩

/-- C8 (amended): when neither `full_addr` nor an `address` group nor a
`force` group is present, the label map contains no structured-address field
and no `full_addr` key, so the header is exactly the label-map keys and none
of the 7 structured-address columns appears in the transformer's output at
all (rather than appearing with empty values). -/
theorem c8_no_address_columns_amended (m : Meta) (haddr : m.address = none)
    (hforce : m.force = none)
    (hfa : List.lookup "full_addr" m.info = none) :
    (∀ f ∈ ADDR_FIELD_LABEL, f ∉ (csvExtractLabels m).map Prod.fst)
    ∧ "full_addr" ∉ (csvExtractLabels m).map Prod.fst
    ∧ generateFirstRow (csvExtractLabels m) =
        (csvExtractLabels m).map Prod.fst
    ∧ (∀ f ∈ ADDR_FIELD_LABEL, f ∉ generateFirstRow (csvExtractLabels m)) := by
  have haf : ∀ f ∈ ADDR_FIELD_LABEL, f ∉ (csvExtractLabels m).map Prod.fst :=
    fun f hf hmem => csvExtractLabels_key_some m f hmem
      (csvExtractLabel_none m f haddr hforce (Or.inl hf))
  have hfa2 : "full_addr" ∉ (csvExtractLabels m).map Prod.fst :=
    fun hmem => csvExtractLabels_key_some m "full_addr" hmem
      (csvExtractLabel_none m "full_addr" haddr hforce (Or.inr hfa))
  have hrow : generateFirstRow (csvExtractLabels m) =
      (csvExtractLabels m).map Prod.fst := by
    unfold generateFirstRow
    rw [if_neg hfa2]
  exact ⟨haf, hfa2, hrow, fun f hf => hrow ▸ haf f hf⟩

/-- Witness for C8 (amended): on the concrete no-address document the header
equals the label-map keys (and so contains no address column). -/
theorem c8_no_address_columns_amended_witness :
    generateFirstRow (csvExtractLabels
        ⟨[("bus_name", Locator.str "Name")], none, none⟩) =
      (csvExtractLabels
        ⟨[("bus_name", Locator.str "Name")], none, none⟩).map Prod.fst :=
  (c8_no_address_columns_amended
    ⟨[("bus_name", Locator.str "Name")], none, none⟩ rfl rfl (by decide)).2.2.1

/-- C9: for both transformer variants, when every record resolves without
error, a record whose resolved row is entirely empty strings is dropped and
every other record is written as one row, in source record order: the output
is the header followed by the resolved rows with the all-empty ones filtered
out, a subsequence of the resolved record sequence. -/
theorem c9_empty_rows_dropped :
    (∀ (parserFn : String → List (String × String))
      (tags : List (String × Locator)) (records : List Record)
      (rows : List (List String)) (fs : PipeFS),
      records.map (csvResolveRow parserFn tags) = rows.map Except.ok →
      csvParseFS parserFn tags records fs =
        (⟨some (generateFirstRow tags ::
            rows.filter (fun r => !isRowEmpty r)), none⟩, .normal)
      ∧ (rows.filter (fun r => !isRowEmpty r)).Sublist rows)
    ∧ (∀ (parserFn : String → List (String × String))
      (tags : List (String × Locator)) (xrecords : List XmlElem)
      (rows : List (List String)) (fs : PipeFS),
      xrecords.map (xmlResolveRow parserFn tags) = rows.map Except.ok →
      xmlParseFS parserFn tags xrecords fs =
        (⟨some (generateFirstRow tags ::
            rows.filter (fun r => !isRowEmpty r)), fs.tempFile⟩, .normal)
      ∧ (rows.filter (fun r => !isRowEmpty r)).Sublist rows) := by
  constructor
  · intro parserFn tags records rows fs h
    refine ⟨?_, List.filter_sublist _⟩
    unfold csvParseFS
    rw [csvParseGo_all_ok parserFn tags records rows [generateFirstRow tags] h]
    rfl
  · intro parserFn tags xrecords rows fs h
    refine ⟨?_, List.filter_sublist _⟩
    unfold xmlParseFS
    rw [xmlParseGo_all_ok parserFn tags xrecords rows [generateFirstRow tags] h]
    rfl

/-- Witness for C9: a concrete CSV run where the second record resolves to
an all-empty row and is dropped while record order is preserved. -/
theorem c9_empty_rows_dropped_witness :
    csvParseFS (fun _ => []) [("bus_name", Locator.str "Name")]
        [[("Name", "Acme")], [("Name", " ")]] ⟨none, none⟩ =
      (⟨some [["bus_name"], ["acme"]], none⟩, .normal) := by
  have h := (c9_empty_rows_dropped.1 (fun _ => [])
    [("bus_name", Locator.str "Name")]
    [[("Name", "Acme")], [("Name", " ")]] [["acme"], [""]] ⟨none, none⟩
    (by decide)).1
  rw [h]
  decide

end OBR
